import Mathlib

/-!
Verification development for the Aurora dashboard backend (`server.js`).

The definitions below are a shallow embedding of the server's pure data
logic.  JavaScript numbers are modelled as `Rat` (every value the server
stores is finite; `NaN`/`Infinity` are modelled as `none`), JS strings as
Lean `String`/`List Char`, and `undefined`/`null` as `Option`/`JVal.jnull`.
`Date` parsing is modelled for the ISO-8601 subset that the feeds use,
following the ECMA-262 Date Time String Format rules that matter here:
a trailing `Z` or a `±hh:mm`/`±hhmm` suffix fixes the offset, a date-only
string is UTC, and a date-time string without an offset is local time
(the local offset, in minutes east of UTC, is an explicit parameter).
-/

namespace Aurora

/-! ## JS value model and numeric helpers -/

/-- A JSON-ish value as it appears in a parsed feed row: a finite number,
a string, or `null`.  `undefined` is modelled by absence (`Option`). -/
inductive JVal where
  | num (q : Rat)
  | str (s : String)
  | jnull
deriving DecidableEq, Repr

/-- A parsed feed row: an object, as an association list (JS object keys
are unique; lookup takes the first match). -/
def Row := List (String × JVal)

instance : DecidableEq Row := by unfold Row; infer_instance

/-- `row[k]` — `none` models `undefined`. -/
def rowGet (r : Row) (k : String) : Option JVal :=
  (r.find? (fun p => p.1 = k)).map (·.2)

def isWsChar (c : Char) : Bool :=
  c = ' ' || c = '\t' || c = '\n' || c = '\r'

def isDigitCh (c : Char) : Bool := '0' ≤ c && c ≤ '9'

def digVal (c : Char) : Nat := c.toNat - 48

/-- Consume a maximal run of decimal digits: value, digit count, rest. -/
def takeDigits : List Char → Nat × Nat × List Char
  | [] => (0, 0, [])
  | c :: rest =>
    if isDigitCh c then
      let (v, n, r) := takeDigits rest
      (digVal c * 10 ^ n + v, n + 1, r)
    else (0, 0, c :: rest)

/-- Multiply a rational by an integer (`mkRat` keeps the result in lowest
terms; core `Rat.mul` is `@[irreducible]`, so arithmetic is spelled out
through `mkRat` to keep every definition kernel-evaluable). -/
def qmulInt (x : Rat) (n : Int) : Rat := mkRat (x.num * n) x.den

/-- Divide a rational by a positive natural. -/
def qdivNat (x : Rat) (n : Nat) : Rat := mkRat x.num (x.den * n)

/-- Model of `Number.parseFloat` restricted to finite results: optional
whitespace and sign, digits with optional fraction, optional exponent
(an incomplete exponent suffix is ignored, as in JS).  `none` models a
`NaN` (or non-finite) result. -/
def jsParseFloat (s : String) : Option Rat :=
  let cs := s.data.dropWhile isWsChar
  let (sgn, cs1) : Int × List Char :=
    match cs with
    | '+' :: r => (1, r)
    | '-' :: r => (-1, r)
    | _ => (1, cs)
  let (ip, ni, cs2) := takeDigits cs1
  let (fp, nf, cs3) : Nat × Nat × List Char :=
    match cs2 with
    | '.' :: r => takeDigits r
    | _ => (0, 0, cs2)
  if ni = 0 ∧ nf = 0 then none
  else
    let mant : Rat := mkRat (sgn * ((ip : Int) * 10 ^ nf + (fp : Int))) (10 ^ nf)
    let e : Int :=
      match cs3 with
      | c :: r =>
        if c = 'e' ∨ c = 'E' then
          let (es, r2) : Int × List Char :=
            match r with
            | '+' :: rr => (1, rr)
            | '-' :: rr => (-1, rr)
            | _ => (1, r)
          let (ev, ne, _) := takeDigits r2
          if ne = 0 then 0 else es * (ev : Int)
        else 0
      | [] => 0
    some (if 0 ≤ e then qmulInt mant (10 ^ e.toNat) else qdivNat mant (10 ^ (-e).toNat))

/-- `toNumber` (server.js line 67): numbers pass through, strings go through
`parseFloat`, everything else is `NaN` (`none`); non-finite results map to
`null` (`none`). -/
def toNumber : JVal → Option Rat
  | .num q => some q
  | .str s => jsParseFloat s
  | .jnull => none

/-- `Math.round`: round half toward positive infinity, i.e.
`⌊x + 1/2⌋`, computed as `(2·num + den) fdiv (2·den)`. -/
def jsRound (x : Rat) : Int := Int.fdiv (2 * x.num + x.den) (2 * x.den)

/-- `jsRound` really is `⌊x + 1/2⌋`. -/
theorem jsRound_eq_floor (x : Rat) : jsRound x = ⌊x + 1 / 2⌋ := by
  have hden : ((x.den : ℚ)) ≠ 0 := by
    exact_mod_cast x.den_nz
  have hx : x + 1 / 2 = ((2 * x.num + (x.den : ℤ) : ℤ) : ℚ) / ((2 * x.den : ℕ) : ℚ) := by
    nth_rewrite 1 [← Rat.num_div_den x]
    push_cast
    field_simp
    ring
  rw [hx, Rat.floor_intCast_div_natCast, jsRound,
    Int.fdiv_eq_ediv _ (by positivity)]
  norm_cast

/-- `round1` (server.js line 71) on a nullable number. -/
def round1 (v : Option Rat) : Option Rat :=
  v.map (fun x => mkRat (jsRound (qmulInt x 10)) 10)

/-- `round2` (server.js line 72) on a nullable number. -/
def round2 (v : Option Rat) : Option Rat :=
  v.map (fun x => mkRat (jsRound (qmulInt x 100)) 100)

/-! ## Date model (proleptic Gregorian, per ECMA-262) -/

/-- Days since 1970-01-01 of a civil date (Hinnant's algorithm, with floor
division; `Int.ediv` is floor division for the positive divisors used). -/
def daysFromCivil (y : Int) (m d : Int) : Int :=
  let y1 := y - (if m ≤ 2 then 1 else 0)
  let era := Int.ediv y1 400
  let yoe := y1 - era * 400
  let mp := Int.emod (m + 9) 12
  let doy := Int.ediv (153 * mp + 2) 5 + d - 1
  let doe := yoe * 365 + Int.ediv yoe 4 - Int.ediv yoe 100 + doy
  era * 146097 + doe - 719468

/-- Civil date (year, month, day) of a days-since-epoch count. -/
def civilFromDays (z0 : Int) : Int × Int × Int :=
  let z := z0 + 719468
  let era := Int.ediv z 146097
  let doe := z - era * 146097
  let yoe := Int.ediv (doe - Int.ediv doe 1460 + Int.ediv doe 36524 - Int.ediv doe 146096) 365
  let y := yoe + era * 400
  let doy := doe - (365 * yoe + Int.ediv yoe 4 - Int.ediv yoe 100)
  let mp := Int.ediv (5 * doy + 2) 153
  let d := doy - Int.ediv (153 * mp + 2) 5 + 1
  let m := mp + (if mp < 10 then 3 else -9)
  (y + (if m ≤ 2 then 1 else 0), m, d)

def isLeapYear (y : Int) : Bool :=
  (Int.emod y 4 = 0 && Int.emod y 100 ≠ 0) || Int.emod y 400 = 0

def daysInMonth (y : Int) (m : Nat) : Nat :=
  if m = 2 then (if isLeapYear y then 29 else 28)
  else if m = 4 ∨ m = 6 ∨ m = 9 ∨ m = 11 then 30
  else 31

/-- Calendar fields recovered from an ISO-format string. -/
structure DTFields where
  year : Int
  month : Nat
  day : Nat
  hour : Nat
  minute : Nat
  second : Nat
  msec : Nat
  dateOnly : Bool
deriving DecidableEq, Repr

/-- Epoch milliseconds of the fields read as a UTC wall clock. -/
def fieldsToMs (f : DTFields) : Int :=
  daysFromCivil f.year f.month f.day * 86400000
    + (f.hour : Int) * 3600000 + (f.minute : Int) * 60000
    + (f.second : Int) * 1000 + (f.msec : Int)

/-- Read exactly `n` decimal digits. -/
def readN : Nat → Nat → List Char → Option (Nat × List Char)
  | 0, acc, cs => some (acc, cs)
  | n + 1, acc, c :: cs =>
    if isDigitCh c then readN n (acc * 10 + digVal c) cs else none
  | _ + 1, _, [] => none

def expectCh (c : Char) : List Char → Option (List Char)
  | d :: cs => if d = c then some cs else none
  | [] => none

/-- Parse the core `YYYY-MM-DD[THH:MM[:SS[.f{1+}]]]` of an ISO timestamp
(any offset suffix has already been removed), validating field ranges the
way `new Date(...)` does. -/
def coreParse (cs0 : List Char) : Option DTFields := do
  let (y, cs) ← readN 4 0 cs0
  let cs ← expectCh '-' cs
  let (mo, cs) ← readN 2 0 cs
  let cs ← expectCh '-' cs
  let (dy, cs) ← readN 2 0 cs
  if ¬ (1 ≤ mo ∧ mo ≤ 12 ∧ 1 ≤ dy ∧ dy ≤ daysInMonth y mo) then none
  else
    match cs with
    | [] => some ⟨y, mo, dy, 0, 0, 0, 0, true⟩
    | 'T' :: cs => do
      let (h, cs) ← readN 2 0 cs
      let cs ← expectCh ':' cs
      let (mi, cs) ← readN 2 0 cs
      if ¬ (h ≤ 23 ∧ mi ≤ 59) then none
      else
        match cs with
        | [] => some ⟨y, mo, dy, h, mi, 0, 0, false⟩
        | ':' :: cs => do
          let (s, cs) ← readN 2 0 cs
          if ¬ s ≤ 59 then none
          else
            match cs with
            | [] => some ⟨y, mo, dy, h, mi, s, 0, false⟩
            | '.' :: cs => do
              let (fv, fn, rest) := takeDigits cs
              if fn = 0 ∨ rest ≠ [] then none
              else
                let ms := if fn ≤ 3 then fv * 10 ^ (3 - fn) else fv / 10 ^ (fn - 3)
                some ⟨y, mo, dy, h, mi, s, ms, false⟩
            | _ => none
        | _ => none
    | _ => none

/-- Match a trailing `±hh:mm` or `±hhmm` offset against the REVERSED
character list; returns the offset in minutes and the (reversed) prefix. -/
def takeOffsetSuffixRev (r : List Char) : Option (Int × List Char) :=
  match r with
  | mLo :: mHi :: ':' :: hLo :: hHi :: c :: rest =>
    if (c = '+' ∨ c = '-') ∧ isDigitCh mLo ∧ isDigitCh mHi ∧ isDigitCh hLo ∧ isDigitCh hHi then
      let mins : Int := ((digVal hHi * 10 + digVal hLo) * 60 + (digVal mHi * 10 + digVal mLo) : Nat)
      some (if c = '-' then -mins else mins, rest)
    else none
  | mLo :: mHi :: hLo :: hHi :: c :: rest =>
    if (c = '+' ∨ c = '-') ∧ isDigitCh mLo ∧ isDigitCh mHi ∧ isDigitCh hLo ∧ isDigitCh hHi then
      let mins : Int := ((digVal hHi * 10 + digVal hLo) * 60 + (digVal mHi * 10 + digVal mLo) : Nat)
      some (if c = '-' then -mins else mins, rest)
    else none
  | _ => none

/-- Model of `new Date(string).getTime()` for the ISO subset, given the
process-local UTC offset in minutes (east positive): a trailing `Z` is UTC,
a trailing numeric offset is honoured, a date-only string is UTC, and a
date-time string without an offset marker is local time. `none` models an
Invalid Date. -/
def jsDateParse (cs : List Char) (localOff : Int) : Option Int :=
  if cs.getLast? = some 'Z' then
    (coreParse cs.dropLast).map fieldsToMs
  else
    match takeOffsetSuffixRev cs.reverse with
    | some (mins, preRev) => (coreParse preRev.reverse).map (fun f => fieldsToMs f - mins * 60000)
    | none =>
      (coreParse cs).map (fun f =>
        if f.dateOnly then fieldsToMs f else fieldsToMs f - localOff * 60000)

def digitCh (n : Nat) : Char := Char.ofNat (48 + n % 10)

def pad2 (n : Nat) : String := String.mk [digitCh (n / 10), digitCh n]

def pad3 (n : Nat) : String := String.mk [digitCh (n / 100), digitCh (n / 10), digitCh n]

def pad4 (n : Nat) : String :=
  String.mk [digitCh (n / 1000), digitCh (n / 100), digitCh (n / 10), digitCh n]

/-- Model of `Date.prototype.toISOString` (years 0–9999). -/
def epochToIso (t : Int) : String :=
  let days := Int.ediv t 86400000
  let r := (Int.emod t 86400000).toNat
  let (y, mo, dy) := civilFromDays days
  pad4 y.toNat ++ "-" ++ pad2 mo.toNat ++ "-" ++ pad2 dy.toNat ++ "T"
    ++ pad2 (r / 3600000) ++ ":" ++ pad2 (r % 3600000 / 60000) ++ ":"
    ++ pad2 (r % 60000 / 1000) ++ "." ++ pad3 (r % 1000) ++ "Z"

/-- The timezone-marker test of `parseToUTC` (server.js line 162): the
regex `/Z|[+\-]\d\d:?\d\d$/` — a `Z` anywhere, or a trailing numeric
offset. -/
def hasTzMarker (cs : List Char) : Bool :=
  cs.contains 'Z' || (takeOffsetSuffixRev cs.reverse).isSome

/-- `str.replace(' ', 'T')` — JS `replace` with a string pattern replaces
only the first occurrence. -/
def replaceFirstSpaceT : List Char → List Char
  | [] => []
  | c :: cs => if c = ' ' then 'T' :: cs else c :: replaceFirstSpaceT cs

/-- `parseToUTC` (server.js lines 159-165): with a tz marker, standardize
and parse; without one, append `Z` so the string is read as UTC.  Returns
the string handed to the `Date` constructor. -/
def parseToUTC (cs : List Char) : List Char :=
  if hasTzMarker cs then replaceFirstSpaceT cs
  else replaceFirstSpaceT cs ++ ['Z']

/-- `normalizeUtcIso` (server.js lines 167-172); `localOff` is the process
local offset used by the `Date` machinery; an unparseable input is
returned unchanged (the `catch` branch). -/
def normalizeUtcIso (localOff : Int) (s : String) : String :=
  match jsDateParse (parseToUTC s.data) localOff with
  | some t => epochToIso t
  | none => s

/-- `shiftIso` (server.js lines 150-156). -/
def shiftIso (localOff : Int) (iso : String) (minutes : Int) : String :=
  match jsDateParse (parseToUTC iso.data) localOff with
  | some t => epochToIso (t + minutes * 60000)
  | none => iso

/-- `fmtHM` (server.js lines 114-118): local-time `HH:MM` label of an ISO
timestamp; an Invalid Date yields `"NaN:NaN"`. -/
def fmtHM (localOff : Int) (iso : String) : String :=
  match jsDateParse iso.data localOff with
  | some t =>
    let r := (Int.emod (t + localOff * 60000) 86400000).toNat
    pad2 (r / 3600000) ++ ":" ++ pad2 (r % 3600000 / 60000)
  | none => "NaN:NaN"

/-- Sort key used by `times.sort((a, b) => new Date(a) - new Date(b))`
(server.js line 394); an Invalid Date is treated as key 0. -/
def dateKey (localOff : Int) (s : String) : Int :=
  (jsDateParse s.data localOff).getD 0

/-! ## Value picking and latest-value helpers (server.js lines 120-148) -/

/-- `latestNonNull(rows, key)` (server.js lines 120-127): last row, scanning
from the end, whose `key` field coerces to a finite number. -/
def latestNonNull (rows : List Row) (key : String) : Option Rat :=
  rows.reverse.findSome? (fun r => (rowGet r key).bind toNumber)

/-- `latestFinite(arr)` (server.js lines 129-136) on an array of
numbers-or-nulls: the last finite entry. -/
def latestFinite (arr : List (Option Rat)) : Option Rat :=
  arr.reverse.findSome? id

/-- `pick(row, keys)` (server.js lines 139-148): first finite numeric value
among the candidate keys; keys that are absent, `null`, the empty string,
or not numerically coercible are passed over. -/
def pick (row : Option Row) (keys : List String) : Option Rat :=
  match row with
  | none => none
  | some r =>
    keys.findSome? (fun k =>
      match rowGet r k with
      | some v => if v ≠ .jnull ∧ v ≠ .str "" then toNumber v else none
      | none => none)

/-! ## Solar-wind time alignment (getSolarwind, server.js lines 379-487) -/

def speedKeys : List String := ["speed", "flow_speed", "bulk_speed", "v", "proton_speed"]
def densityKeys : List String := ["density", "proton_density", "n"]
def bzKeys : List String := ["bz_gsm", "bz", "bz_gse"]
def btKeys : List String := ["bt", "bt_total"]

/-- The `time_tag` of a parsed row, when it is a non-empty string
(`parseSwpc` keeps only rows with a truthy `time_tag`). -/
def timeTag (r : Row) : Option String :=
  match rowGet r "time_tag" with
  | some (.str s) => if s = "" then none else some s
  | _ => none

/-- First-occurrence de-duplication with a seen-set accumulator. -/
def dedupFirstAux (seen : List String) : List String → List String
  | [] => []
  | x :: xs =>
    if x ∈ seen then dedupFirstAux seen xs
    else x :: dedupFirstAux (x :: seen) xs

/-- First-occurrence de-duplication, as a JS `Set`/`Map` key list. -/
def dedupFirst (l : List String) : List String := dedupFirstAux [] l

/-- Key list of `new Map(rows.map(r => [r.time_tag, r]))`: first-occurrence
order over the rows' time tags. -/
def keysOf (rows : List Row) : List String :=
  dedupFirst (rows.filterMap timeTag)

/-- `map.get(t)`: the value stored for a key is the LAST row with that
`time_tag` (later map entries overwrite earlier ones). -/
def mapGet (rows : List Row) (t : String) : Option Row :=
  rows.reverse.find? (fun r => timeTag r = some t)

/-- `Array.from(new Set([...pMap.keys(), ...mMap.keys()]))`
(server.js line 394, before sorting). -/
def unionTimes (plasma mag : List Row) : List String :=
  dedupFirst (keysOf plasma ++ keysOf mag)

/-- The union of timestamps sorted ascending by parsed date value
(server.js line 394). -/
def sortedUnion (k : String → Int) (plasma mag : List Row) : List String :=
  (unionTimes plasma mag).insertionSort (fun a b => k a ≤ k b)

/-- `times.slice(-60)` (server.js line 395): the most recent 60 timestamps. -/
def chartTail (k : String → Int) (plasma mag : List Row) : List String :=
  let ts := sortedUnion k plasma mag
  ts.drop (ts.length - 60)

/-- Body of the strict-join scan (server.js lines 424-439): both feeds have
a record at `t` and all four required fields resolve via `pick` to finite
numbers. -/
def alignedOK (plasma mag : List Row) (t : String) : Bool :=
  match mapGet plasma t, mapGet mag t with
  | some _, some _ =>
    (pick (mapGet mag t) bzKeys).isSome && (pick (mapGet mag t) btKeys).isSome
      && (pick (mapGet plasma t) speedKeys).isSome
      && (pick (mapGet plasma t) densityKeys).isSome
  | _, _ => false

/-- The strict-join scan (server.js lines 424-440): walk the full,
untruncated sorted union from most recent to oldest and stop at the first
timestamp where `alignedOK` holds. -/
def nowScan (k : String → Int) (plasma mag : List Row) : Option String :=
  (sortedUnion k plasma mag).reverse.find? (alignedOK plasma mag)

/-- The four fields of the `now` snapshot. -/
structure SWNow where
  bz : Option Rat
  bt : Option Rat
  speed : Option Rat
  density : Option Rat
deriving DecidableEq, Repr

/-- The JSON payload of `getSolarwind` (chart-relevant fields). -/
structure SWOut where
  updatedAt : String
  now : SWNow
  labels : List String
  times : List String
  speed : List (Option Rat)
  density : List (Option Rat)
  bz : List (Option Rat)
  bt : List (Option Rat)
deriving DecidableEq, Repr

/-- Chart speed series (server.js lines 403-418, `speed` array). -/
def chartSpeed (k : String → Int) (plasma mag : List Row) : List (Option Rat) :=
  (chartTail k plasma mag).map (fun t => round1 (pick (mapGet plasma t) speedKeys))

/-- Chart density series. -/
def chartDensity (k : String → Int) (plasma mag : List Row) : List (Option Rat) :=
  (chartTail k plasma mag).map (fun t => round2 (pick (mapGet plasma t) densityKeys))

/-- Chart bz series. -/
def chartBz (k : String → Int) (plasma mag : List Row) : List (Option Rat) :=
  (chartTail k plasma mag).map (fun t => round1 (pick (mapGet mag t) bzKeys))

/-- Chart bt series. -/
def chartBt (k : String → Int) (plasma mag : List Row) : List (Option Rat) :=
  (chartTail k plasma mag).map (fun t => round1 (pick (mapGet mag t) btKeys))

/-- `nowVals` as set by the strict-join loop (server.js lines 421-440):
all-null when the scan finds nothing. -/
def scannedNow (k : String → Int) (plasma mag : List Row) : SWNow :=
  match nowScan k plasma mag with
  | some t =>
    { bz := round1 (pick (mapGet mag t) bzKeys)
      bt := round1 (pick (mapGet mag t) btKeys)
      speed := round1 (pick (mapGet plasma t) speedKeys)
      density := round2 (pick (mapGet plasma t) densityKeys) }
  | none => ⟨none, none, none, none⟩

/-- The fallback snapshot (server.js lines 442-450): `bz`/`bt` from the
latest finite `bz_gsm`/`bt` field of the raw magnetometer rows; `speed`/
`density` from the last finite entry of the chart series, else the latest
finite `speed`/`density` field of the raw plasma rows. -/
def fallbackNow (k : String → Int) (plasma mag : List Row) : SWNow :=
  { bz := round1 (latestNonNull mag "bz_gsm")
    bt := round1 (latestNonNull mag "bt")
    speed := round1 ((latestFinite (chartSpeed k plasma mag)).orElse
      (fun _ => latestNonNull plasma "speed"))
    density := round2 ((latestFinite (chartDensity k plasma mag)).orElse
      (fun _ => latestNonNull plasma "density")) }

/-- The final `now` snapshot: the fallback replaces the scanned values
exactly when all four scanned fields are null (server.js line 442). -/
def finalNow (k : String → Int) (plasma mag : List Row) : SWNow :=
  let s := scannedNow k plasma mag
  if s.bz = none ∧ s.bt = none ∧ s.speed = none ∧ s.density = none
  then fallbackNow k plasma mag else s

/-- The normalize-then-optionally-shift step applied to every emitted
timestamp (server.js lines 406-407, 435-436); `toff` is `TIME_OFFSET_MIN`. -/
def normShift (localOff toff : Int) (t : String) : String :=
  let norm := normalizeUtcIso localOff t
  if toff ≠ 0 then shiftIso localOff norm toff else norm

/-- The pure core of `getSolarwind` (server.js lines 392-478) on parsed
feeds: `localOff` is the process-local UTC offset, `toff` is
`TIME_OFFSET_MIN`, and `nowIso` stands in for `new Date().toISOString()`
used when the series is empty. -/
def solarwind (localOff toff : Int) (nowIso : String) (plasma mag : List Row) : SWOut :=
  let k := dateKey localOff
  let tail := chartTail k plasma mag
  let timesOut := tail.map (normShift localOff toff)
  let nowTimeAligned := (nowScan k plasma mag).map (normShift localOff toff)
  { updatedAt :=
      match nowTimeAligned with
      | some t => t
      | none => match timesOut.getLast? with
        | some t => t
        | none => nowIso
    now := finalNow k plasma mag
    labels := timesOut.map (fmtHM localOff)
    times := timesOut
    speed := chartSpeed k plasma mag
    density := chartDensity k plasma mag
    bz := chartBz k plasma mag
    bt := chartBt k plasma mag }

/-! ## Read-through cache (server.js lines 25-33, 379-381, 479-485, 489-491,
513-519): one slot per key, `{data, ts}`, refreshed with the current time on
every fetch, success or fallback alike. -/

/-- One step of the cache logic shared by `getSolarwind`/`getKp` and the
keyed caches: given the stored entry (`none` models `{data: null, ts: 0}`),
the current time, the TTL, and the value the underlying fetch would
produce (real or fallback), return the served value, the new entry, and
whether the underlying fetch ran. -/
def cachedFetch (entry : Option (α × Int)) (now ttl : Int) (fetched : α) :
    α × Option (α × Int) × Bool :=
  match entry with
  | some (d, ts) =>
    if now - ts < ttl then (d, some (d, ts), false)
    else (fetched, some (fetched, now), true)
  | none => (fetched, some (fetched, now), true)

/-- `TTL_MS` (server.js line 33). -/
def TTL_MS : Int := 4 * 60 * 1000

/-- `WEATHER_TTL_MS` (server.js line 35). -/
def WEATHER_TTL_MS : Int := 10 * 60 * 1000

/-! ## Station catalogs and per-endpoint input handling -/

/-- `FMI_STATIONS` (server.js line 245). -/
def FMI_STATIONS : List String :=
  ["KEV", "MAS", "KIL", "IVA", "MUO", "PEL", "RAN", "OUJ", "MEK", "HAN", "NUR", "TAR"]

/-- `validStations` of `/api/fmi/textdata` (server.js line 795). -/
def textdataValidStations : List String :=
  ["KEV", "MAS", "KIL", "IVA", "MUO", "PEL", "RAN", "OUJ", "MEK", "HAN", "NUR", "TAR", "SOD"]

/-- JS `a || b` on an optional string: `undefined` and `''` are falsy. -/
def jsOrStr (q : Option String) (d : String) : String :=
  match q with
  | none => d
  | some s => if s = "" then d else s

def upChar (c : Char) : Char :=
  if 'a' ≤ c ∧ c ≤ 'z' then Char.ofNat (c.toNat - 32) else c

/-- ASCII `toUpperCase` (station codes are ASCII). -/
def jsToUpper (s : String) : String := String.mk (s.data.map upChar)

/-- Station coercion of `/api/fmi/bx` (server.js lines 737-738): uppercase
the query (default `KEV`), and fall back to `KEV` when the result is not a
known station. -/
def bxStation (q : Option String) : String :=
  let raw := jsToUpper (jsOrStr q "KEV")
  if raw ∈ FMI_STATIONS then raw else "KEV"

/-- Station validation of `/api/fmi/textdata` (server.js lines 794-798):
`true` when the request is rejected with HTTP 400. -/
def textdataRejects (q : Option String) : Bool :=
  let st := jsToUpper (jsOrStr q "")
  decide (st ∉ textdataValidStations)

/-- One per-station magnetometer row as produced by the FMI XML parser or
the mock generator ({time, bx, bz?, station?}). -/
structure FmiRow where
  time : String
  bx : Option Rat
  bz : Option Rat
deriving DecidableEq, Repr

/-- The payload assembled by `getFmiBx` (server.js lines 582-592) from the
fetched rows; `nowIso` stands in for `new Date().toISOString()`. -/
structure FmiBxOut where
  station : String
  minutes : Int
  times : List String
  bx : List (Option Rat)
  bz : List (Option Rat)
  updatedAt : String
deriving DecidableEq, Repr

def fmiBxPayload (station : String) (minutes : Int) (rows : List FmiRow)
    (nowIso : String) : FmiBxOut :=
  { station := station
    minutes := minutes
    times := rows.map (·.time)
    bx := rows.map (·.bx)
    bz := rows.map (·.bz)
    updatedAt :=
      match rows.getLast? with
      | some r => r.time
      | none => nowIso }

/-! ## Radar tile proxy (server.js lines 603-685) -/

/-- `FMI_RADAR_LAYERS` (server.js lines 62-65). -/
def FMI_RADAR_LAYERS : List String :=
  ["Radar:radar_ppi_fikau_dbzv", "Radar:suomi_rr_eureffin"]

/-- JS `"".split(',')` semantics: always at least one (possibly empty)
piece. -/
def splitComma : List Char → List (List Char)
  | [] => [[]]
  | c :: rest =>
    match splitComma rest with
    | [] => if c = ',' then [[], []] else [[c]]
    | s :: ss => if c = ',' then [] :: s :: ss else (c :: s) :: ss

/-- `String.prototype.trim` (ASCII whitespace suffices for this input
space). -/
def jsTrim (cs : List Char) : List Char :=
  ((cs.dropWhile isWsChar).reverse.dropWhile isWsChar).reverse

/-- `rawLayers.split(',').map(s => s.trim())` (server.js lines 618-620). -/
def layerTokens (raw : String) : List String :=
  (splitComma raw.data).map (fun cs => String.mk (jsTrim cs))

/-- `.filter(s => s && FMI_RADAR_LAYERS.has(s))` (server.js line 621). -/
def filteredLayers (raw : String) : List String :=
  (layerTokens raw).filter (fun s => s ≠ "" && s ∈ FMI_RADAR_LAYERS)

/-- WebMercator clamp bound (server.js line 632), 20037508.342789244. -/
def webMercMax : Rat := mkRat 20037508342789244 1000000000

def jsMin (a b : Rat) : Rat := if b < a then b else a

def jsMax (a b : Rat) : Rat := if a < b then b else a

def clampWebMerc (v : Rat) : Rat :=
  jsMax (mkRat (-20037508342789244) 1000000000) (jsMin webMercMax v)

/-- Outcome of input validation in the radar proxy, before any upstream
request. -/
inductive RadarCheck where
  | badLayers
  | badBbox
  | proceed (layers : List String) (bbox : List Rat)
deriving DecidableEq, Repr

/-- The input-validation prefix of `/api/fmi/radar` (server.js lines
616-633): allowlist-filter the layers (HTTP 400 when nothing is left),
then require four finite bbox numbers (HTTP 400 otherwise), clamped to the
WebMercator range. -/
def radarCheck (layersQ bboxQ : Option String) : RadarCheck :=
  let rawLayers := jsOrStr layersQ "Radar:radar_ppi_fikau_dbzv"
  let layers := filteredLayers rawLayers
  if layers = [] then .badLayers
  else
    let parts := (splitComma (jsOrStr bboxQ "").data).map
      (fun cs => jsParseFloat (String.mk cs))
    if parts.length ≠ 4 ∨ parts.any (·.isNone) then .badBbox
    else .proceed layers ((parts.filterMap id).map clampWebMerc)

/-! ## Endpoint failure policy (section 7 of the spec) -/

/-- Did the upstream fetch for a resource succeed or fail (HTTP
non-success, malformed payload, or network error — all reach the same
`catch`)? -/
inductive Upstream where
  | ok
  | fail
deriving DecidableEq, Repr

/-- HTTP status and whether a synthetic fallback payload was served. -/
structure EndpointResult where
  status : Nat
  fallback : Bool
deriving DecidableEq, Repr

/-- `/api/solarwind` (server.js lines 687-695 with getSolarwind lines
481-486): the fetcher catches every upstream failure and serves
`mockSolarwindData()`, so the handler always responds 200. -/
def solarwindRespond : Upstream → EndpointResult
  | .ok => ⟨200, false⟩
  | .fail => ⟨200, true⟩

/-- `/api/kp` (server.js lines 697-705 with getKp lines 515-519). -/
def kpRespond : Upstream → EndpointResult
  | .ok => ⟨200, false⟩
  | .fail => ⟨200, true⟩

/-- `/api/rx` (server.js lines 707-715): always mock data. -/
def rxRespond : Upstream → EndpointResult
  | _ => ⟨200, true⟩

/-- `/api/weather` (server.js lines 718-733 with getWeatherTemperature
lines 564-568): the fetcher catches failures and serves a null-field
payload with status 200. -/
def weatherRespond : Upstream → EndpointResult
  | .ok => ⟨200, false⟩
  | .fail => ⟨200, true⟩

/-- `/api/fmi/bx` (server.js lines 735-749 with fetchFmiMagnetometerData
lines 350-354): failures fall back to `mockFmiBxData`, status 200. -/
def fmiBxRespond : Upstream → EndpointResult
  | .ok => ⟨200, false⟩
  | .fail => ⟨200, true⟩

/-- `/api/fmi/textdata` (server.js lines 793-824): invalid station → 400;
upstream failure → 500 (`catch` branch, line 822); no fallback payload. -/
def textdataRespond (stationQ : Option String) (u : Upstream) : EndpointResult :=
  if textdataRejects stationQ then ⟨400, false⟩
  else match u with
    | .ok => ⟨200, false⟩
    | .fail => ⟨500, false⟩

/-- `/api/fmi/radar` (server.js lines 603-685): invalid input → 400,
upstream failure → 502, no fallback tile. -/
def radarRespond (layersQ bboxQ : Option String) (u : Upstream) : EndpointResult :=
  match radarCheck layersQ bboxQ with
  | .badLayers => ⟨400, false⟩
  | .badBbox => ⟨400, false⟩
  | .proceed _ _ => match u with
    | .ok => ⟨200, false⟩
    | .fail => ⟨502, false⟩

/-- `SOLAR_IMG_SOURCES` allowlist (server.js lines 753-755). -/
def solarImgSources : List String := ["soho_sunspot"]

/-- `/api/solarimage` (server.js lines 757-775): unknown source → 400,
upstream failure → 502. -/
def solarimageRespond (srcQ : Option String) (u : Upstream) : EndpointResult :=
  let key := jsOrStr srcQ "soho_sunspot"
  if key ∉ solarImgSources then ⟨400, false⟩
  else match u with
    | .ok => ⟨200, false⟩
    | .fail => ⟨502, false⟩

/-! ## Weather coordinate coercion (server.js lines 718-727) -/

def defaultLat : Rat := mkRat 604728 10000
def defaultLon : Rat := mkRat 263042 10000

/-- `req.query.lat ?? '60.4728'` then `parseFloat`, range check, and
default substitution (server.js lines 721-726). -/
def coerceLat (q : Option String) : Rat :=
  let raw := match q with
    | none => "60.4728"
    | some s => s
  match jsParseFloat raw with
  | some v => if -90 ≤ v ∧ v ≤ 90 then v else defaultLat
  | none => defaultLat

def coerceLon (q : Option String) : Rat :=
  let raw := match q with
    | none => "26.3042"
    | some s => s
  match jsParseFloat raw with
  | some v => if -180 ≤ v ∧ v ≤ 180 then v else defaultLon
  | none => defaultLon

/-- The weather handler never rejects coordinates: it always proceeds to
the fetch with the coerced pair (server.js lines 718-728). -/
def weatherCoords (latQ lonQ : Option String) : Rat × Rat :=
  (coerceLat latQ, coerceLon lonQ)

/-! ## Helper lemmas -/

theorem find?_split {α : Type} {p : α → Bool} :
    ∀ {l : List α} {a : α}, l.find? p = some a →
      ∃ s t, l = s ++ a :: t ∧ ∀ x ∈ s, p x = false := by
  intro l
  induction l with
  | nil => intro a h; simp [List.find?] at h
  | cons b l ih =>
    intro a h
    by_cases hp : p b
    · rw [List.find?_cons_of_pos _ hp] at h
      cases h
      exact ⟨[], l, rfl, by simp⟩
    · rw [List.find?_cons_of_neg _ hp] at h
      obtain ⟨s, t, rfl, hs⟩ := ih h
      refine ⟨b :: s, t, rfl, ?_⟩
      intro x hx
      rcases List.mem_cons.mp hx with rfl | hx
      · simpa using hp
      · exact hs x hx

theorem sortedUnion_sorted (k : String → Int) (plasma mag : List Row) :
    (sortedUnion k plasma mag).Sorted (fun a b => k a ≤ k b) := by
  haveI : IsTotal String (fun a b => k a ≤ k b) := ⟨fun a b => le_total _ _⟩
  haveI : IsTrans String (fun a b => k a ≤ k b) := ⟨fun _ _ _ => le_trans⟩
  exact List.sorted_insertionSort _ _

theorem mem_sortedUnion {k : String → Int} {plasma mag : List Row} {u : String} :
    u ∈ sortedUnion k plasma mag ↔ u ∈ unionTimes plasma mag :=
  List.mem_insertionSort _

/-! ## Claim theorems -/

/-- C1: the solar-wind `now` snapshot is chosen by scanning the full
(untruncated) union of both feeds' timestamps from most recent to oldest
and selecting the first timestamp at which both feeds have a record and
all four required fields resolve via `pick` to finite numbers: a found
timestamp satisfies the strict join and every strictly more recent
timestamp of the union fails it, and when the scan finds nothing, no
timestamp of the union satisfies the strict join. -/
theorem strict_join_picks_latest_aligned (k : String → Int) (plasma mag : List Row) :
    (∀ t, nowScan k plasma mag = some t →
      alignedOK plasma mag t = true ∧ t ∈ unionTimes plasma mag ∧
        ∀ u ∈ unionTimes plasma mag, k t < k u → alignedOK plasma mag u = false) ∧
    (nowScan k plasma mag = none →
      ∀ u ∈ unionTimes plasma mag, alignedOK plasma mag u = false) := by
  constructor
  · intro t ht
    have hp : alignedOK plasma mag t = true := List.find?_some ht
    obtain ⟨s1, s2, hsplit, hfail⟩ := find?_split ht
    have hL : sortedUnion k plasma mag = s2.reverse ++ t :: s1.reverse := by
      have := congrArg List.reverse hsplit
      simpa [List.reverse_append] using this
    have htmem : t ∈ sortedUnion k plasma mag := by
      rw [hL]; exact List.mem_append_right _ (List.mem_cons_self _ _)
    refine ⟨hp, mem_sortedUnion.mp htmem, ?_⟩
    intro u hu hklt
    have humem : u ∈ sortedUnion k plasma mag := mem_sortedUnion.mpr hu
    rw [hL] at humem
    have hsorted := sortedUnion_sorted k plasma mag
    rw [hL] at hsorted
    rcases List.mem_append.mp humem with hu1 | hu2
    · -- u precedes t in the sorted list, so k u ≤ k t; contradiction
      have hrel := (List.pairwise_append.mp hsorted).2.2 u hu1 t (List.mem_cons_self _ _)
      exact absurd hrel (not_le.mpr hklt)
    · rcases List.mem_cons.mp hu2 with rfl | hu3
      · exact absurd hklt (lt_irrefl _)
      · exact hfail u (by simpa using hu3)
  · intro h u hu
    have humem : u ∈ (sortedUnion k plasma mag).reverse :=
      List.mem_reverse.mpr (mem_sortedUnion.mpr hu)
    have := List.find?_eq_none.mp h u humem
    simpa using this

/-- Example plasma feed with timestamps {t1, t2, t3}; density is missing at
t2, so the four required fields are simultaneously finite only at t3. -/
def plasmaEx : List Row :=
  [[("time_tag", .str "2024-01-01T00:01:00Z"), ("speed", .num 400), ("density", .num 5)],
   [("time_tag", .str "2024-01-01T00:02:00Z"), ("speed", .num 410)],
   [("time_tag", .str "2024-01-01T00:03:00Z"), ("speed", .num 420), ("density", .num 6)]]

/-- Example magnetometer feed with timestamps {t2, t3, t4}. -/
def magEx : List Row :=
  [[("time_tag", .str "2024-01-01T00:02:00Z"), ("bz_gsm", .num (-1)), ("bt", .num 5)],
   [("time_tag", .str "2024-01-01T00:03:00Z"), ("bz_gsm", .num (-2)), ("bt", .num 6)],
   [("time_tag", .str "2024-01-01T00:04:00Z"), ("bz_gsm", .num (-3)), ("bt", .num 7)]]

/-- Witness for C1 at the spec's own scenario: feed A has {t1,t2,t3}, feed
B has {t2,t3,t4}, all four fields are finite only at t3, and the scan
selects t3 — not t4 (B's latest) and not t1. -/
theorem strict_join_picks_latest_aligned_witness :
    alignedOK plasmaEx magEx "2024-01-01T00:03:00Z" = true ∧
    "2024-01-01T00:03:00Z" ∈ unionTimes plasmaEx magEx ∧
    ∀ u ∈ unionTimes plasmaEx magEx,
      dateKey 0 "2024-01-01T00:03:00Z" < dateKey 0 u →
        alignedOK plasmaEx magEx u = false :=
  (strict_join_picks_latest_aligned (dateKey 0) plasmaEx magEx).1
    "2024-01-01T00:03:00Z" (by decide)

/-- C2 counterexample feeds: the magnetometer feed carries its field under
the key `bz` (a documented candidate key for the chart series' `pick`),
and the plasma feed is empty, so the strict join finds nothing. -/
def magBzOnly : List Row :=
  [[("time_tag", .str "2024-01-01T00:00:00Z"), ("bz", .num 1)]]

/-- C2 counterexample: with an empty plasma feed and a magnetometer feed
whose field is keyed `bz`, no timestamp satisfies the strict join, the bz
chart series' latest finite value is 1, yet the fallback snapshot's `bz`
is null — the fallback does NOT take the latest finite value from the
field's own chart series. -/
theorem fallback_bz_not_from_chart_series :
    nowScan (dateKey 0) [] magBzOnly = none ∧
    latestFinite (solarwind 0 0 "1970-01-01T00:00:00.000Z" [] magBzOnly).bz = some 1 ∧
    (solarwind 0 0 "1970-01-01T00:00:00.000Z" [] magBzOnly).now.bz = none := by
  refine ⟨by decide, by decide, by decide⟩

/-- C2 (amended): if no timestamp in the union satisfies the strict join,
the fallback snapshot takes `speed` and `density` from the last finite
entry of their own chart series (falling back to the latest finite
`speed`/`density` field of the raw plasma rows), but takes `bz` and `bt`
from the latest finite `bz_gsm`/`bt` field of the raw magnetometer rows —
not from the chart series — so the four fields may come from different
timestamps. -/
theorem fallback_fields_per_series (localOff toff : Int) (nowIso : String)
    (plasma mag : List Row)
    (h : nowScan (dateKey localOff) plasma mag = none) :
    (solarwind localOff toff nowIso plasma mag).now.bz
        = round1 (latestNonNull mag "bz_gsm") ∧
    (solarwind localOff toff nowIso plasma mag).now.bt
        = round1 (latestNonNull mag "bt") ∧
    (solarwind localOff toff nowIso plasma mag).now.speed
        = round1 ((latestFinite (solarwind localOff toff nowIso plasma mag).speed).orElse
            (fun _ => latestNonNull plasma "speed")) ∧
    (solarwind localOff toff nowIso plasma mag).now.density
        = round2 ((latestFinite (solarwind localOff toff nowIso plasma mag).density).orElse
            (fun _ => latestNonNull plasma "density")) := by
  have hs : scannedNow (dateKey localOff) plasma mag = ⟨none, none, none, none⟩ := by
    unfold scannedNow
    rw [h]
  simp only [solarwind, finalNow, hs, fallbackNow]
  norm_num

/-- Witness for the amended C2 at the counterexample feeds. -/
theorem fallback_fields_per_series_witness :
    (solarwind 0 0 "1970-01-01T00:00:00.000Z" [] magBzOnly).now.bz
        = round1 (latestNonNull magBzOnly "bz_gsm") ∧
    (solarwind 0 0 "1970-01-01T00:00:00.000Z" [] magBzOnly).now.bt
        = round1 (latestNonNull magBzOnly "bt") ∧
    (solarwind 0 0 "1970-01-01T00:00:00.000Z" [] magBzOnly).now.speed
        = round1 ((latestFinite (solarwind 0 0 "1970-01-01T00:00:00.000Z" [] magBzOnly).speed).orElse
            (fun _ => latestNonNull [] "speed")) ∧
    (solarwind 0 0 "1970-01-01T00:00:00.000Z" [] magBzOnly).now.density
        = round2 ((latestFinite (solarwind 0 0 "1970-01-01T00:00:00.000Z" [] magBzOnly).density).orElse
            (fun _ => latestNonNull [] "density")) :=
  fallback_fields_per_series 0 0 "1970-01-01T00:00:00.000Z" [] magBzOnly (by decide)

theorem parse_no_tz_appends_z {s : List Char} (h : hasTzMarker s = false) :
    parseToUTC s = replaceFirstSpaceT s ++ ['Z'] := by
  unfold parseToUTC
  rw [h]
  simp

theorem jsDateParse_concat_z (r : List Char) (off : Int) :
    jsDateParse (r ++ ['Z']) off = (coreParse r).map fieldsToMs := by
  unfold jsDateParse
  rw [List.getLast?_concat]
  simp [List.dropLast_concat]

/-- C3: a timestamp string with no timezone/offset marker (the
`/Z|[+\-]\d\d:?\d\d$/` test fails) is always interpreted as UTC — the
parsed instant is exactly the UTC reading of its calendar fields, for
every process-local offset; in particular `"2024-01-01 12:00:00"`
normalizes to `"2024-01-01T12:00:00.000Z"` regardless of the local
offset. -/
theorem no_tz_marker_parses_as_utc :
    (∀ (s : List Char) (off : Int), hasTzMarker s = false →
      jsDateParse (parseToUTC s) off = (coreParse (replaceFirstSpaceT s)).map fieldsToMs) ∧
    (∀ off : Int, normalizeUtcIso off "2024-01-01 12:00:00" = "2024-01-01T12:00:00.000Z") := by
  have key : ∀ (s : List Char) (off : Int), hasTzMarker s = false →
      jsDateParse (parseToUTC s) off = (coreParse (replaceFirstSpaceT s)).map fieldsToMs := by
    intro s off h
    rw [parse_no_tz_appends_z h, jsDateParse_concat_z]
  refine ⟨key, ?_⟩
  intro off
  unfold normalizeUtcIso
  rw [key _ off (by decide)]
  decide

/-- Witness for C3 at the spec's example string, with a non-zero local
offset (9 hours east): the instant is the UTC reading, unshifted. -/
theorem no_tz_marker_parses_as_utc_witness :
    jsDateParse (parseToUTC "2024-01-01 12:00:00".data) 540
      = (coreParse (replaceFirstSpaceT "2024-01-01 12:00:00".data)).map fieldsToMs ∧
    normalizeUtcIso 540 "2024-01-01 12:00:00" = "2024-01-01T12:00:00.000Z" :=
  ⟨no_tz_marker_parses_as_utc.1 "2024-01-01 12:00:00".data 540 (by decide),
   no_tz_marker_parses_as_utc.2 540⟩

/-- C4: a fetch within the TTL of the stored entry returns the stored
payload unchanged without invoking the underlying fetch; a fetch at or
after TTL expiry (or with an empty slot) invokes the underlying fetch
exactly once, stores its result — fallback payloads included — with the
current timestamp, and returns it. -/
theorem cache_ttl_contract {α : Type} (d fetched : α) (ts now ttl : Int) :
    (now - ts < ttl →
      cachedFetch (some (d, ts)) now ttl fetched = (d, some (d, ts), false)) ∧
    (ttl ≤ now - ts →
      cachedFetch (some (d, ts)) now ttl fetched = (fetched, some (fetched, now), true)) ∧
    cachedFetch (none : Option (α × Int)) now ttl fetched
      = (fetched, some (fetched, now), true) := by
  refine ⟨fun h => ?_, fun h => ?_, rfl⟩
  · simp [cachedFetch, h]
  · simp [cachedFetch, not_lt.mpr h]

/-- Witness for C4: a hit 100 s after storing (within the 4-minute TTL)
serves the cached value without fetching; a call exactly at expiry
fetches once and refreshes the timestamp. -/
theorem cache_ttl_contract_witness :
    cachedFetch (some (1, 0)) 100000 TTL_MS 2 = (1, some (1, 0), false) ∧
    cachedFetch (some (1, 0)) 240000 TTL_MS 2 = (2, some (2, 240000), true) :=
  ⟨(cache_ttl_contract 1 2 0 100000 TTL_MS).1 (by decide),
   (cache_ttl_contract 1 2 0 240000 TTL_MS).2.1 (by decide)⟩

/-- C5 counterexample: `/api/fmi/textdata` is a data-producing JSON
endpoint — neither the tile proxy nor the image proxy — yet on an
upstream failure with a valid station it responds with HTTP 500, an error
status, not a successful-looking fallback payload. -/
theorem textdata_returns_error_status :
    textdataRespond (some "KEV") .fail = ⟨500, false⟩ ∧ (500 : Nat) ≠ 200 := by
  exact ⟨by decide, by decide⟩

/-- C5 (amended): on upstream failure the core JSON data endpoints
(solar wind, Kp, RX, weather, per-station magnetometer) respond 200 with
a synthetic fallback payload; the tile proxy and the image proxy respond
502 (400 for invalid input); but the magnetometer text-dump endpoint is
an exception among the JSON endpoints — it responds 500 with no
fallback. -/
theorem endpoint_failure_policy :
    solarwindRespond .fail = ⟨200, true⟩ ∧
    kpRespond .fail = ⟨200, true⟩ ∧
    rxRespond .fail = ⟨200, true⟩ ∧
    weatherRespond .fail = ⟨200, true⟩ ∧
    fmiBxRespond .fail = ⟨200, true⟩ ∧
    (∀ q, textdataRejects q = false → textdataRespond q .fail = ⟨500, false⟩) ∧
    (∀ lq bq layers bbox, radarCheck lq bq = .proceed layers bbox →
      radarRespond lq bq .fail = ⟨502, false⟩) ∧
    (∀ sq, jsOrStr sq "soho_sunspot" ∈ solarImgSources →
      solarimageRespond sq .fail = ⟨502, false⟩) := by
  refine ⟨rfl, rfl, rfl, rfl, rfl, ?_, ?_, ?_⟩
  · intro q h
    simp [textdataRespond, h]
  · intro lq bq layers bbox h
    simp [radarRespond, h]
  · intro sq h
    simp [solarimageRespond, h]

/-- Witness for the amended C5 at concrete requests. -/
theorem endpoint_failure_policy_witness :
    textdataRespond (some "NUR") .fail = ⟨500, false⟩ ∧
    radarRespond (some "Radar:suomi_rr_eureffin") (some "0,0,1,1") .fail = ⟨502, false⟩ ∧
    solarimageRespond none .fail = ⟨502, false⟩ :=
  ⟨endpoint_failure_policy.2.2.2.2.2.1 (some "NUR") (by decide),
   endpoint_failure_policy.2.2.2.2.2.2.1 (some "Radar:suomi_rr_eureffin") (some "0,0,1,1")
     ["Radar:suomi_rr_eureffin"] [0, 0, 1, 1] (by decide),
   endpoint_failure_policy.2.2.2.2.2.2.2 none (by decide)⟩

/-- C6: in the radar tile proxy, a non-empty `layers` parameter whose
comma-separated, trimmed tokens all fall outside the two-entry allowlist
is rejected with HTTP 400 (`badLayers`); when at least one token is in
the allowlist the request is not rejected for its layers, even if other
tokens are invalid — rejection happens exactly when the allowlist filter
leaves nothing. -/
theorem radar_layers_allowlist (bboxQ : Option String) (raw : String) (hraw : raw ≠ "") :
    ((∀ t ∈ layerTokens raw, t = "" ∨ t ∉ FMI_RADAR_LAYERS) →
      radarCheck (some raw) bboxQ = .badLayers) ∧
    ((∃ t ∈ layerTokens raw, t ≠ "" ∧ t ∈ FMI_RADAR_LAYERS) →
      radarCheck (some raw) bboxQ ≠ .badLayers) := by
  have hdef : jsOrStr (some raw) "Radar:radar_ppi_fikau_dbzv" = raw := by
    simp [jsOrStr, hraw]
  constructor
  · intro h
    have hempty : filteredLayers raw = [] := by
      unfold filteredLayers
      rw [List.filter_eq_nil_iff]
      intro t ht
      rcases h t ht with h1 | h2
      · simp [h1]
      · simp [h2]
    unfold radarCheck
    rw [hdef]
    simp [hempty]
  · rintro ⟨t, ht, hne, hmem⟩
    have hfull : t ∈ filteredLayers raw := by
      rw [filteredLayers, List.mem_filter]
      exact ⟨ht, by simp [hne, hmem]⟩
    have hnonempty : filteredLayers raw ≠ [] := by
      intro hcon
      rw [hcon] at hfull
      exact absurd hfull (List.not_mem_nil t)
    unfold radarCheck
    rw [hdef, if_neg hnonempty]
    dsimp only
    split
    · intro hcon
      cases hcon
    · intro hcon
      cases hcon

/-- Witness for C6: an all-invalid `layers` value is rejected with 400;
an invalid value mixed with one valid layer is not rejected. -/
theorem radar_layers_allowlist_witness :
    radarCheck (some "bogus, also-bad") (some "0,0,1,1") = .badLayers ∧
    radarCheck (some "bogus,Radar:radar_ppi_fikau_dbzv") (some "0,0,1,1") ≠ .badLayers :=
  ⟨(radar_layers_allowlist (some "0,0,1,1") "bogus, also-bad" (by decide)).1 (by decide),
   (radar_layers_allowlist (some "0,0,1,1") "bogus,Radar:radar_ppi_fikau_dbzv"
     (by decide)).2 (by decide)⟩

/-- C7 counterexample: the full-day text-dump endpoint does NOT reject
every station code outside the 12-code `FMI_STATIONS` set: `SOD` is
outside that set, yet `/api/fmi/textdata` accepts it (no HTTP 400). -/
theorem textdata_accepts_sod :
    textdataRejects (some "SOD") = false ∧ "SOD" ∉ FMI_STATIONS := by
  exact ⟨by decide, by decide⟩

/-- C7 (amended): the minute-window endpoint coerces any station query
whose uppercased value is outside the 12-code `FMI_STATIONS` set to the
default `KEV` (never rejecting, e.g. `zzz` resolves to `KEV`), while the
full-day text-dump endpoint validates against its own 13-code list —
the 12 codes plus `SOD` — and rejects exactly the codes outside that
list with HTTP 400 (so `zzz` yields 400 there, but `SOD` is accepted). -/
theorem station_code_policy :
    (∀ q, bxStation q ∈ FMI_STATIONS) ∧
    (∀ q, jsToUpper (jsOrStr q "KEV") ∉ FMI_STATIONS → bxStation q = "KEV") ∧
    (∀ q, textdataRejects q = true ↔ jsToUpper (jsOrStr q "") ∉ textdataValidStations) ∧
    textdataValidStations = FMI_STATIONS ++ ["SOD"] ∧
    bxStation (some "zzz") = "KEV" ∧
    textdataRejects (some "zzz") = true := by
  refine ⟨?_, ?_, ?_, by decide, by decide, by decide⟩
  · intro q
    by_cases h : jsToUpper (jsOrStr q "KEV") ∈ FMI_STATIONS
    · simp [bxStation, h]
    · simp only [bxStation, if_neg h]
      decide
  · intro q h
    simp [bxStation, h]
  · intro q
    unfold textdataRejects
    simp

/-- Witness for the amended C7: an arbitrary unknown code is coerced on
the minute-window endpoint and rejected on the text-dump endpoint. -/
theorem station_code_policy_witness :
    bxStation (some "qqq") = "KEV" ∧ textdataRejects (some "qqq") = true :=
  ⟨station_code_policy.2.1 (some "qqq") (by decide),
   (station_code_policy.2.2.1 (some "qqq")).mpr (by decide)⟩

/-- C8: the solar-wind chart series is built over the most recent (at
most) 60 timestamps of the sorted union of the two feeds: the emitted
`times` are the tail timestamps in order (normalized/shifted), the tail
is ascending by parsed date value, and all six parallel arrays have the
same length, at most 60. -/
theorem chart_series_sorted_window (localOff toff : Int) (nowIso : String)
    (plasma mag : List Row) :
    (solarwind localOff toff nowIso plasma mag).times
        = (chartTail (dateKey localOff) plasma mag).map (normShift localOff toff) ∧
    ((chartTail (dateKey localOff) plasma mag).map (dateKey localOff)).Sorted (· ≤ ·) ∧
    (solarwind localOff toff nowIso plasma mag).times.length ≤ 60 ∧
    (solarwind localOff toff nowIso plasma mag).labels.length
        = (solarwind localOff toff nowIso plasma mag).times.length ∧
    (solarwind localOff toff nowIso plasma mag).speed.length
        = (solarwind localOff toff nowIso plasma mag).times.length ∧
    (solarwind localOff toff nowIso plasma mag).density.length
        = (solarwind localOff toff nowIso plasma mag).times.length ∧
    (solarwind localOff toff nowIso plasma mag).bz.length
        = (solarwind localOff toff nowIso plasma mag).times.length ∧
    (solarwind localOff toff nowIso plasma mag).bt.length
        = (solarwind localOff toff nowIso plasma mag).times.length := by
  refine ⟨rfl, ?_, ?_, ?_, ?_, ?_, ?_, ?_⟩
  · have hs := sortedUnion_sorted (dateKey localOff) plasma mag
    have htail : (chartTail (dateKey localOff) plasma mag).Pairwise
        (fun a b => dateKey localOff a ≤ dateKey localOff b) :=
      hs.sublist (List.drop_sublist _ _)
    exact (List.pairwise_map).mpr htail
  · have : (chartTail (dateKey localOff) plasma mag).length ≤ 60 := by
      unfold chartTail
      rw [List.length_drop]
      omega
    simpa [solarwind] using this
  · simp [solarwind]
  · simp [solarwind, chartSpeed]
  · simp [solarwind, chartDensity]
  · simp [solarwind, chartBz]
  · simp [solarwind, chartBt]

/-- C9: the per-station magnetometer payload has one `times`/`bx`/`bz`
entry per fetched row, in row order, and `updatedAt` is the time of the
last row when there is one. -/
theorem fmiBx_payload_shape (station : String) (minutes : Int)
    (rows : List FmiRow) (nowIso : String) :
    (fmiBxPayload station minutes rows nowIso).times.length = rows.length ∧
    (fmiBxPayload station minutes rows nowIso).bx.length = rows.length ∧
    (fmiBxPayload station minutes rows nowIso).bz.length = rows.length ∧
    (∀ i : Nat,
      (fmiBxPayload station minutes rows nowIso).times[i]? = rows[i]?.map (·.time) ∧
      (fmiBxPayload station minutes rows nowIso).bx[i]? = rows[i]?.map (·.bx) ∧
      (fmiBxPayload station minutes rows nowIso).bz[i]? = rows[i]?.map (·.bz)) ∧
    (∀ r, rows.getLast? = some r →
      (fmiBxPayload station minutes rows nowIso).updatedAt = r.time) := by
  refine ⟨by simp [fmiBxPayload], by simp [fmiBxPayload], by simp [fmiBxPayload], ?_, ?_⟩
  · intro i
    refine ⟨?_, ?_, ?_⟩ <;> simp [fmiBxPayload, List.getElem?_map]
  · intro r h
    simp [fmiBxPayload, h]

/-- Witness for C9 at a concrete two-row fetch. -/
theorem fmiBx_payload_shape_witness :
    (fmiBxPayload "KEV" 60
      [⟨"2024-01-01T00:00:00Z", some 1, none⟩, ⟨"2024-01-01T00:05:00Z", some 2, some 3⟩]
      "1970-01-01T00:00:00.000Z").times[1]?
        = some "2024-01-01T00:05:00Z" ∧
    (fmiBxPayload "KEV" 60
      [⟨"2024-01-01T00:00:00Z", some 1, none⟩, ⟨"2024-01-01T00:05:00Z", some 2, some 3⟩]
      "1970-01-01T00:00:00.000Z").updatedAt = "2024-01-01T00:05:00Z" := by
  have h := fmiBx_payload_shape "KEV" 60
    [⟨"2024-01-01T00:00:00Z", some 1, none⟩, ⟨"2024-01-01T00:05:00Z", some 2, some 3⟩]
    "1970-01-01T00:00:00.000Z"
  exact ⟨by rw [(h.2.2.2.1 1).1]; rfl,
    h.2.2.2.2 ⟨"2024-01-01T00:05:00Z", some 2, some 3⟩ (by rfl)⟩

/-- C10: a weather `lat` query that is missing, non-numeric, or outside
[-90, 90] is replaced by the default 60.4728, and a `lon` query that is
missing, non-numeric, or outside [-180, 180] by the default 26.3042;
in-range values are kept, and the handler always proceeds to the fetch
with the coerced pair (it never rejects the request). -/
theorem weather_coordinate_coercion :
    coerceLat none = defaultLat ∧
    (∀ s, jsParseFloat s = none → coerceLat (some s) = defaultLat) ∧
    (∀ s v, jsParseFloat s = some v → ¬(-90 ≤ v ∧ v ≤ 90) →
      coerceLat (some s) = defaultLat) ∧
    (∀ s v, jsParseFloat s = some v → -90 ≤ v → v ≤ 90 → coerceLat (some s) = v) ∧
    coerceLon none = defaultLon ∧
    (∀ s, jsParseFloat s = none → coerceLon (some s) = defaultLon) ∧
    (∀ s v, jsParseFloat s = some v → ¬(-180 ≤ v ∧ v ≤ 180) →
      coerceLon (some s) = defaultLon) ∧
    (∀ s v, jsParseFloat s = some v → -180 ≤ v → v ≤ 180 → coerceLon (some s) = v) ∧
    (∀ latQ lonQ, weatherCoords latQ lonQ = (coerceLat latQ, coerceLon lonQ)) := by
  refine ⟨by decide, ?_, ?_, ?_, by decide, ?_, ?_, ?_, fun _ _ => rfl⟩
  · intro s h
    simp [coerceLat, h]
  · intro s v h hnr
    simp [coerceLat, h, if_neg hnr]
  · intro s v h h1 h2
    simp [coerceLat, h, if_pos (And.intro h1 h2)]
  · intro s h
    simp [coerceLon, h]
  · intro s v h hnr
    simp [coerceLon, h, if_neg hnr]
  · intro s v h h1 h2
    simp [coerceLon, h, if_pos (And.intro h1 h2)]

/-- Witness for C10: a non-numeric latitude, an out-of-range latitude,
an in-range latitude, and an out-of-range longitude, all coerced as
claimed. -/
theorem weather_coordinate_coercion_witness :
    coerceLat (some "abc") = defaultLat ∧
    coerceLat (some "100") = defaultLat ∧
    coerceLat (some "45.5") = mkRat 455 10 ∧
    coerceLon (some "-181") = defaultLon :=
  ⟨weather_coordinate_coercion.2.1 "abc" (by decide),
   weather_coordinate_coercion.2.2.1 "100" 100 (by decide) (by decide),
   weather_coordinate_coercion.2.2.2.1 "45.5" (mkRat 455 10) (by decide)
     (by decide) (by decide),
   weather_coordinate_coercion.2.2.2.2.2.2.1 "-181" (-181) (by decide) (by decide)⟩

end Aurora
